import Mathlib

/-!
# Verification of `arithmetic_arranger` (arithmetic_arranger.py)

A shallow embedding of `src/arithmetic_arranger.py` in Lean 4, together with
theorems settling the behavioral claims about it.

The Python program is modelled as follows:
* Python strings become Lean `String`; Python `list` becomes `List`.
* Python runtime exceptions (`IndexError` from out-of-range list indexing,
  `ValueError` from `int()` on a non-parseable string) become the `PyErr`
  error of an `Except PyErr _` result.
* The Python builtins used by the source (`str.split()`, `str.isnumeric()`,
  `int()`, `str()` of an `int`, `str.rjust`) are modelled by explicit
  executable definitions, documented individually below.
-/

namespace ArithmeticArranger

/-- Python runtime exceptions that the embedded code can raise:
`IndexError` (list subscript out of range) and `ValueError` (`int()` on a
string that is not a valid integer literal). -/
inductive PyErr where
  | indexError : PyErr
  | valueError : PyErr
  deriving DecidableEq, Repr

/-! ## Models of the Python builtins used by the source -/

/-- Whitespace as recognized by Python's `str.split()` with no argument
(ASCII space, tab, newline, carriage return, vertical tab, form feed). -/
def pyIsSpace (c : Char) : Bool :=
  c == ' ' || c == '\t' || c == '\n' || c == '\r' ||
  c == Char.ofNat 11 || c == Char.ofNat 12

/-- Accumulator-style worker for `pySplit`: first argument is the remaining
input, second is the (reversed) characters of the token currently being
built. Runs of whitespace are skipped; empty tokens are never produced. -/
def splitWSAux : List Char → List Char → List String
  | [], [] => []
  | [], acc => [String.mk acc.reverse]
  | c :: cs, acc =>
    if pyIsSpace c then
      match acc with
      | [] => splitWSAux cs []
      | _ => String.mk acc.reverse :: splitWSAux cs []
    else
      splitWSAux cs (c :: acc)

/-- Model of Python `str.split()` with no arguments: split on runs of
whitespace, discarding empty tokens. -/
def pySplit (s : String) : List String :=
  splitWSAux s.data []

/-- Numeric classification of a character, as needed to model Python's
`str.isnumeric()` versus `int()`:
* `decimalDigit` — accepted by both `isnumeric()` and `int()`;
* `numericOther` — characters in Unicode categories No/Nl (fractions,
  superscripts, ...): `isnumeric()` accepts them but `int()` rejects them;
* `nonNumeric` — everything else.
The model classifies the ASCII digits `0`–`9` as `decimalDigit` and a
representative set of No-category characters (vulgar fractions and
superscript digits) as `numericOther`; every other character is
conservatively `nonNumeric`. -/
inductive NumClass where
  | decimalDigit : NumClass
  | numericOther : NumClass
  | nonNumeric : NumClass
  deriving DecidableEq, BEq, Repr

/-- Character classification table backing the `isnumeric()`/`int()` models;
see `NumClass`. -/
def pyCharClass (c : Char) : NumClass :=
  if '0' ≤ c && c ≤ '9' then .decimalDigit
  else if c == '½' || c == '¼' || c == '¾' || c == '²' || c == '³' || c == '¹' then
    .numericOther
  else .nonNumeric

/-- Model of Python `str.isnumeric()`: true iff the string is nonempty and
every character is numeric (a decimal digit or another numeric character
such as `½` or `²`). -/
def pyIsNumeric (s : String) : Bool :=
  !s.data.isEmpty && s.data.all (fun c => !(pyCharClass c == NumClass.nonNumeric))

/-- Numeric value of one decimal digit character. -/
def digitVal (c : Char) : Nat :=
  c.toNat - 48

/-- Left fold computing the value of a decimal digit string
(most significant digit first), as `int()` does. -/
def digitsVal : List Char → Nat → Nat
  | [], acc => acc
  | c :: cs, acc => digitsVal cs (10 * acc + digitVal c)

/-- Model of Python `int()` restricted to the tokens the source applies it
to: tokens produced by `split()` (hence free of whitespace and, having
passed `isnumeric()`, free of sign characters). It succeeds exactly when the
string is a nonempty run of decimal digits, and raises `ValueError`
otherwise — in particular on `isnumeric` characters such as `½`. -/
def pyInt (s : String) : Except PyErr Int :=
  if !s.data.isEmpty && s.data.all (fun c => pyCharClass c == NumClass.decimalDigit) then
    .ok (Int.ofNat (digitsVal s.data 0))
  else
    .error .valueError

/-- The character of one decimal digit value. -/
def digitChar (d : Nat) : Char :=
  Char.ofNat (48 + d)

/-- Decimal digits of `n`, least significant first, with explicit fuel so the
recursion is structural; fuel `n + 1` always suffices. -/
def digitsRevAux : Nat → Nat → List Char
  | 0, _ => []
  | fuel + 1, n =>
    if n < 10 then [digitChar n]
    else digitChar (n % 10) :: digitsRevAux fuel (n / 10)

/-- Model of Python `str()` on a non-negative integer: its decimal digits. -/
def pyNatRepr (n : Nat) : String :=
  String.mk (digitsRevAux (n + 1) n).reverse

/-- Model of Python `str()` on an integer: decimal digits, preceded by `-`
when negative. -/
def pyIntRepr (z : Int) : String :=
  if z < 0 then "-" ++ pyNatRepr z.natAbs else pyNatRepr z.toNat

/-- Model of Python `str.rjust(width, fill)`: pad on the left with `fill` up
to `width`; a string at least `width` long is returned unchanged. -/
def pyRjust (s : String) (width : Nat) (fill : Char) : String :=
  if width ≤ s.length then s
  else String.mk (List.replicate (width - s.length) fill ++ s.data)

/-- Python list subscription `l[i]`: the element, or `IndexError` when out of
range. -/
def pyGet (l : List α) (i : Nat) : Except PyErr α :=
  match l.get? i with
  | some a => .ok a
  | none => .error .indexError

/-! ## Constants of the source -/

def PROBLEM_LIMIT : Nat := 5
def DIGIT_LENGTH_LIMIT : Nat := 4
def OP1_IDX : Nat := 0
def SIGN_IDX : Nat := 1
def OP2_IDX : Nat := 2

def TAB : String := "    "
def NEW_LINE : String := "\n"

def ERR_TOO_MANY_PROBLEMS : String := "Error: Too many problems."
def ERR_INVALID_OPERATOR : String := "Error: Operator must be '+' or '-'."
def ERR_NON_DIGITS_PRESENT : String := "Error: Numbers must only contain digits."
def ERR_NUMBER_TOO_LONG : String := "Error: Numbers cannot be more than four digits."
def ERR_NUMBER_OF_TOKENS_MISMATCH : String :=
  "Error: Expected 3 tokens (two operands and an operator), but got a different amount."
def ERR_GENERIC : String := "Error: An unexpected error occurred."

def ERR_IO_CODE : Nat := 1
def ERR_NDP_CODE : Nat := 2
def ERR_NTL_CODE : Nat := 3
def ERR_NOTM_CODE : Nat := 4

/-! ## The source functions -/

/-- The `Equation` class of the source. -/
structure Equation where
  operand1 : String
  operator : String
  operand2 : String
  solution : Int
  deriving DecidableEq, Repr

/-- Source `calculate_solution(op1, sign, op2)`:
`(op1 + op2) if (sign == "+") else (op1 - op2)`. -/
def calculate_solution (op1 : Int) (sign : String) (op2 : Int) : Int :=
  if sign = "+" then op1 + op2 else op1 - op2

/-- What `parse_equation` returns without raising: either an `Equation` or a
numeric error code (the Python function returns an `int`). -/
inductive ParseResult where
  | eq : Equation → ParseResult
  | err : Nat → ParseResult
  deriving DecidableEq, Repr

/-- The body of `parse_equation` after `tokens = string_equation.split()`,
line for line. Note the order of effects of the Python source:
`tokens[OP1_IDX]` is subscripted first; by `or`-short-circuiting,
`tokens[OP2_IDX]` is subscripted only when `tokens[OP1_IDX].isnumeric()`
holds. There is no token-count check: `ERR_NOTM_CODE` is never returned. -/
def parse_tokens (tokens : List String) : Except PyErr ParseResult :=
  match pyGet tokens OP1_IDX with
  | .error ex => .error ex
  | .ok t0 =>
    if !pyIsNumeric t0 then .ok (.err ERR_NDP_CODE)
    else
      match pyGet tokens OP2_IDX with
      | .error ex => .error ex
      | .ok t2 =>
        if !pyIsNumeric t2 then .ok (.err ERR_NDP_CODE)
        else if t0.length > DIGIT_LENGTH_LIMIT ∨ t2.length > DIGIT_LENGTH_LIMIT then
          .ok (.err ERR_NTL_CODE)
        else
          match pyGet tokens SIGN_IDX with
          | .error ex => .error ex
          | .ok t1 =>
            if t1 ≠ "+" ∧ t1 ≠ "-" then .ok (.err ERR_IO_CODE)
            else
              match pyInt t0 with
              | .error ex => .error ex
              | .ok op1 =>
                match pyInt t2 with
                | .error ex => .error ex
                | .ok op2 =>
                  .ok (.eq ⟨pyIntRepr op1, t1, pyIntRepr op2,
                        calculate_solution op1 t1 op2⟩)

/-- Source `parse_equation(string_equation)`: split on whitespace, then run
the checks of `parse_tokens` on the token list. -/
def parse_equation (string_equation : String) : Except PyErr ParseResult :=
  parse_tokens (pySplit string_equation)

/-- Longest operand length: `max(len(eq.operand1), len(eq.operand2))`. -/
def get_longest_operand_len (e : Equation) : Nat :=
  max e.operand1.length e.operand2.length

/-- One equation's entry on row `current_line`, i.e. the body of the
`match str(current_line)` in `format_equations_string`; `none` is the
unmatched default case (which makes the Python function return
`ERR_GENERIC`). -/
def lineSegment (current_line : Nat) (e : Equation) : Option String :=
  let longest := get_longest_operand_len e
  if current_line = 1 then some (pyRjust e.operand1 (longest + 2) ' ')
  else if current_line = 2 then
    some (e.operator ++ " " ++ pyRjust e.operand2 longest ' ')
  else if current_line = 3 then some (pyRjust "" (longest + 2) '-')
  else if current_line = 4 then
    some (pyRjust (pyIntRepr e.solution) (longest + 2) ' ')
  else none

/-- The inner `for equation_idx in range(0, len(equations))` loop building
one row: each equation's entry followed by `TAB`, except the last which is
followed by `NEW_LINE`; an empty equation list yields the empty string
(the loop body never runs). `none` propagates the default-case early return
of `ERR_GENERIC`. -/
def buildLine (current_line : Nat) : List Equation → Option String
  | [] => some ""
  | [e] =>
    match lineSegment current_line e with
    | none => none
    | some s => some (s ++ NEW_LINE)
  | e :: rest =>
    match lineSegment current_line e, buildLine current_line rest with
    | some s, some r => some (s ++ TAB ++ r)
    | _, _ => none

/-- The outer `for current_line in r` loop of `format_equations_string`,
accumulating `equations_string`; a `none` row is the early `return
ERR_GENERIC` (the Python early return likewise discards the accumulated
partial output). -/
def formatGo : List Nat → List Equation → String → String
  | [], _, acc => acc
  | l :: rest, eqs, acc =>
    match buildLine l eqs with
    | none => ERR_GENERIC
    | some line => formatGo rest eqs (acc ++ line)

/-- Source `format_equations_string(equations, show_solutions)`: rows
`range(1, 5) = [1, 2, 3, 4]` with solutions, `range(1, 4) = [1, 2, 3]`
without. -/
def format_equations_string (equations : List Equation) (show_solutions : Bool) : String :=
  formatGo (if show_solutions then [1, 2, 3, 4] else [1, 2, 3]) equations ""

/-- The `match str(ret_val)` dispatch in `arithmetic_arranger` turning a
`parse_equation` error code into an error message (`str` of a small
non-negative `int` is its decimal numeral, so the code matches the numeral
string); any unlisted value falls through to `ERR_GENERIC`. -/
def errorMessageFor (code : Nat) : String :=
  if code = 1 then ERR_INVALID_OPERATOR
  else if code = 2 then ERR_NON_DIGITS_PRESENT
  else if code = 3 then ERR_NUMBER_TOO_LONG
  else if code = 4 then ERR_NUMBER_OF_TOKENS_MISMATCH
  else ERR_GENERIC

/-- The `for string_equation in problems` loop of `arithmetic_arranger`:
parse each problem in order, collecting `Equation`s, returning the first
error message (`Sum.inl`) or propagating the first exception. -/
def arrangeLoop : List String → Except PyErr (Sum String (List Equation))
  | [] => .ok (Sum.inr [])
  | p :: rest =>
    match parse_equation p with
    | .error ex => .error ex
    | .ok (.err code) => .ok (Sum.inl (errorMessageFor code))
    | .ok (.eq e) =>
      match arrangeLoop rest with
      | .error ex => .error ex
      | .ok (Sum.inl msg) => .ok (Sum.inl msg)
      | .ok (Sum.inr es) => .ok (Sum.inr (e :: es))

/-- Source `arithmetic_arranger(problems, show_solutions)`: the cardinality check,
then the parse loop, then formatting. The result is a string (either an
error message or the formatted block) unless a Python exception escapes. -/
def arithmetic_arranger (problems : List String) (show_solutions : Bool) :
    Except PyErr String :=
  if problems.length > PROBLEM_LIMIT then .ok ERR_TOO_MANY_PROBLEMS
  else
    match arrangeLoop problems with
    | .error ex => .error ex
    | .ok (Sum.inl msg) => .ok msg
    | .ok (Sum.inr eqs) => .ok (format_equations_string eqs show_solutions)

/-! ## Structural description of the layout

The following definitions restate the claimed shape of the output block
(rows of fixed-width per-equation segments, four-space separators, one
newline terminating each row); the theorems below relate
`format_equations_string` to them. -/

/-- The claimed column width of an equation:
`max(len(operand1), len(operand2)) + 2`. -/
def segWidth (e : Equation) : Nat :=
  get_longest_operand_len e + 2

/-- One row from a list of per-equation segments: segments separated by
`TAB` (four spaces), the row terminated by `NEW_LINE`; no segments, no
row. -/
def rowConcat : List String → String
  | [] => ""
  | [s] => s ++ NEW_LINE
  | s :: rest => s ++ TAB ++ rowConcat rest

/-- Row `l` of the block for `eqs`: the concatenation of each equation's
row-`l` segment. -/
def rowOf (l : Nat) (eqs : List Equation) : String :=
  rowConcat (eqs.map (fun e => (lineSegment l e).getD ""))

/-- The row numbers of the block: `[1, 2, 3]`, plus row `4` when solutions
are shown. -/
def rowIndices (flag : Bool) : List Nat :=
  if flag then [1, 2, 3, 4] else [1, 2, 3]

/-- Concatenation of a list of rows. -/
def concatRows : List String → String
  | [] => ""
  | r :: rs => r ++ concatRows rs

/-- The claimed overall block: the concatenation of all rows. -/
def blockOf (eqs : List Equation) (flag : Bool) : String :=
  concatRows ((rowIndices flag).map (fun l => rowOf l eqs))

/-- The equations obtained by parsing every input expression, when each one
parses successfully ("valid input"). -/
def parsedEquations : List String → Option (List Equation)
  | [] => some []
  | p :: rest =>
    match parse_equation p, parsedEquations rest with
    | .ok (.eq e), some es => some (e :: es)
    | _, _ => none

/-- The shape every `Equation` built by `parse_equation` has: both operands
are decimal renderings of naturals, the operator is a single character, and
the solution is their sum or difference. -/
def WellFormed (e : Equation) : Prop :=
  ∃ n1 n2 : Nat,
    e.operand1 = pyNatRepr n1 ∧ e.operand2 = pyNatRepr n2 ∧
    e.operator.length = 1 ∧
    (e.solution = (n1 : Int) + n2 ∨ e.solution = (n1 : Int) - n2)

/-! ## Lemmas about the builtin models -/

theorem digitsRevAux_lt (fuel : Nat) :
    ∀ n : Nat, n < fuel → n < 10 ^ (digitsRevAux fuel n).length := by
  induction fuel with
  | zero => intro n h; omega
  | succ f ih =>
    intro n h
    unfold digitsRevAux
    split
    · simpa using (by omega : n < 10 ^ 1)
    · rename_i h10
      have hdiv : n / 10 < f := by omega
      have ih2 := ih (n / 10) hdiv
      simp only [List.length_cons]
      calc n < (n / 10 + 1) * 10 := by omega
        _ ≤ 10 ^ (digitsRevAux f (n / 10)).length * 10 :=
            Nat.mul_le_mul_right 10 ih2
        _ = 10 ^ ((digitsRevAux f (n / 10)).length + 1) :=
            (pow_succ 10 _).symm

theorem digitsRevAux_len_le (fuel : Nat) :
    ∀ n k : Nat, n < fuel → n < 10 ^ k → 1 ≤ k →
      (digitsRevAux fuel n).length ≤ k := by
  induction fuel with
  | zero => intro n k h; omega
  | succ f ih =>
    intro n k h hk h1
    unfold digitsRevAux
    split
    · simpa using h1
    · rename_i h10
      have hk2 : 2 ≤ k := by
        by_contra hc
        have : k = 1 := by omega
        subst this
        simp at hk
        omega
      have hdiv : n / 10 < f := by omega
      have hdivpow : n / 10 < 10 ^ (k - 1) := by
        have hs : 10 ^ ((k - 1) + 1) = 10 ^ (k - 1) * 10 := pow_succ 10 _
        have hke : (k - 1) + 1 = k := by omega
        rw [hke] at hs
        have hlt : n < 10 ^ (k - 1) * 10 := by rw [← hs]; exact hk
        exact (Nat.div_lt_iff_lt_mul (by norm_num)).2 hlt
      have ihl := ih (n / 10) (k - 1) hdiv hdivpow (by omega)
      simp only [List.length_cons]
      omega

theorem pyNatRepr_length_eq (n : Nat) :
    (pyNatRepr n).length = (digitsRevAux (n + 1) n).length := by
  simp [pyNatRepr]

theorem pyNatRepr_lt (n : Nat) : n < 10 ^ (pyNatRepr n).length := by
  rw [pyNatRepr_length_eq]
  exact digitsRevAux_lt (n + 1) n (by omega)

theorem pyNatRepr_len_le (n k : Nat) (hk : n < 10 ^ k) (h1 : 1 ≤ k) :
    (pyNatRepr n).length ≤ k := by
  rw [pyNatRepr_length_eq]
  exact digitsRevAux_len_le (n + 1) n k (by omega) hk h1

theorem pyNatRepr_len_pos (n : Nat) : 1 ≤ (pyNatRepr n).length := by
  rw [pyNatRepr_length_eq]
  unfold digitsRevAux
  split <;> simp

theorem pyIntRepr_nonneg (z : Int) (h : 0 ≤ z) :
    pyIntRepr z = pyNatRepr z.toNat := by
  unfold pyIntRepr
  rw [if_neg (by omega)]

theorem pyIntRepr_ofNat (n : Nat) : pyIntRepr (Int.ofNat n) = pyNatRepr n := by
  have h0 : (0 : Int) ≤ Int.ofNat n := by
    rw [Int.ofNat_eq_natCast]
    omega
  rw [pyIntRepr_nonneg _ h0]
  rfl

theorem pyIntRepr_natCast (n : Nat) : pyIntRepr (n : Int) = pyNatRepr n := by
  rw [← Int.ofNat_eq_natCast]
  exact pyIntRepr_ofNat n

theorem pyIntRepr_neg (z : Int) (h : z < 0) :
    pyIntRepr z = "-" ++ pyNatRepr z.natAbs := by
  unfold pyIntRepr
  rw [if_pos h]

theorem pyIntRepr_neg_head (z : Int) (h : z < 0) :
    (pyIntRepr z).data.head? = some '-' := by
  rw [pyIntRepr_neg z h, String.data_append]
  rfl

theorem pyRjust_length (s : String) (w : Nat) (f : Char) :
    (pyRjust s w f).length = max w s.length := by
  unfold pyRjust
  split
  · rename_i h
    omega
  · rename_i h
    show (List.replicate (w - s.length) f ++ s.data).length = max w s.length
    simp only [List.length_append, List.length_replicate]
    have : s.data.length = s.length := rfl
    omega

/-! ## Lemmas about `parse_tokens` and `parse_equation` -/

theorem pyGet_three_zero (a b c : String) : pyGet [a, b, c] OP1_IDX = .ok a := rfl

theorem pyGet_three_one (a b c : String) : pyGet [a, b, c] SIGN_IDX = .ok b := rfl

theorem pyGet_three_two (a b c : String) : pyGet [a, b, c] OP2_IDX = .ok c := rfl

theorem pyInt_ok_shape (s : String) (v : Int) (h : pyInt s = .ok v) :
    ∃ n : Nat, v = Int.ofNat n := by
  unfold pyInt at h
  split at h
  · refine ⟨digitsVal s.data 0, ?_⟩
    injection h with h2
    exact h2.symm
  · simp at h

/-- With three tokens and both operands `isnumeric`, `parse_tokens` reduces
to the length check, the operator check, and the two `int()` conversions. -/
theorem parse_tokens_three_reduce (a b c : String)
    (ha : pyIsNumeric a = true) (hc : pyIsNumeric c = true) :
    parse_tokens [a, b, c] =
      (if a.length > DIGIT_LENGTH_LIMIT ∨ c.length > DIGIT_LENGTH_LIMIT then
        .ok (.err ERR_NTL_CODE)
      else if b ≠ "+" ∧ b ≠ "-" then .ok (.err ERR_IO_CODE)
      else
        match pyInt a with
        | .error ex => .error ex
        | .ok op1 =>
          match pyInt c with
          | .error ex => .error ex
          | .ok op2 =>
            .ok (.eq ⟨pyIntRepr op1, b, pyIntRepr op2,
                  calculate_solution op1 b op2⟩)) := by
  simp [parse_tokens, pyGet, OP1_IDX, SIGN_IDX, OP2_IDX, ha, hc]

theorem parse_tokens_ndp (a b c : String)
    (h : pyIsNumeric a = false ∨ pyIsNumeric c = false) :
    parse_tokens [a, b, c] = .ok (.err ERR_NDP_CODE) := by
  cases ha : pyIsNumeric a with
  | false => simp [parse_tokens, pyGet, OP1_IDX, SIGN_IDX, OP2_IDX, ha]
  | true =>
    have hc : pyIsNumeric c = false := by
      rcases h with h | h
      · rw [h] at ha
        exact Bool.noConfusion ha
      · exact h
    simp [parse_tokens, pyGet, OP1_IDX, SIGN_IDX, OP2_IDX, ha, hc]

theorem parse_tokens_ntl (a b c : String)
    (ha : pyIsNumeric a = true) (hc : pyIsNumeric c = true)
    (hl : 4 < a.length ∨ 4 < c.length) :
    parse_tokens [a, b, c] = .ok (.err ERR_NTL_CODE) := by
  rw [parse_tokens_three_reduce a b c ha hc]
  rw [if_pos (by simpa [DIGIT_LENGTH_LIMIT] using hl)]

theorem parse_tokens_io (a b c : String)
    (ha : pyIsNumeric a = true) (hc : pyIsNumeric c = true)
    (hla : a.length ≤ 4) (hlc : c.length ≤ 4)
    (hb1 : ¬ b = "+") (hb2 : ¬ b = "-") :
    parse_tokens [a, b, c] = .ok (.err ERR_IO_CODE) := by
  rw [parse_tokens_three_reduce a b c ha hc]
  rw [if_neg (by simp [DIGIT_LENGTH_LIMIT]; omega)]
  rw [if_pos ⟨hb1, hb2⟩]

theorem parse_tokens_valid (a b c : String)
    (ha : pyIsNumeric a = true) (hc : pyIsNumeric c = true)
    (hla : a.length ≤ 4) (hlc : c.length ≤ 4)
    (hb : b = "+" ∨ b = "-") (v1 v2 : Int)
    (h1 : pyInt a = .ok v1) (h2 : pyInt c = .ok v2) :
    parse_tokens [a, b, c] =
      .ok (.eq ⟨pyIntRepr v1, b, pyIntRepr v2, calculate_solution v1 b v2⟩) := by
  rw [parse_tokens_three_reduce a b c ha hc]
  rw [if_neg (by simp [DIGIT_LENGTH_LIMIT]; omega)]
  rw [if_neg (by tauto)]
  rw [h1, h2]

/-- Inversion: everything that must have held for `parse_tokens` to build an
`Equation`, and the exact shape of that `Equation`. -/
theorem parse_tokens_eq_inv (ts : List String) (e : Equation)
    (h : parse_tokens ts = .ok (.eq e)) :
    ∃ t0 t1 t2 : String, ∃ v1 v2 : Int,
      pyGet ts OP1_IDX = .ok t0 ∧ pyGet ts SIGN_IDX = .ok t1 ∧
      pyGet ts OP2_IDX = .ok t2 ∧
      pyIsNumeric t0 = true ∧ pyIsNumeric t2 = true ∧
      t0.length ≤ DIGIT_LENGTH_LIMIT ∧ t2.length ≤ DIGIT_LENGTH_LIMIT ∧
      (t1 = "+" ∨ t1 = "-") ∧
      pyInt t0 = .ok v1 ∧ pyInt t2 = .ok v2 ∧
      e = ⟨pyIntRepr v1, t1, pyIntRepr v2, calculate_solution v1 t1 v2⟩ := by
  unfold parse_tokens at h
  split at h
  · simp at h
  rename_i t0 heq0
  split at h
  · simp at h
  rename_i hn0
  split at h
  · simp at h
  rename_i t2 heq2
  split at h
  · simp at h
  rename_i hn2
  split at h
  · simp at h
  rename_i hlen
  split at h
  · simp at h
  rename_i t1 heq1
  split at h
  · simp at h
  rename_i hop
  split at h
  · simp at h
  rename_i v1 hv1
  split at h
  · simp at h
  rename_i v2 hv2
  injection h with h1
  injection h1 with h2
  refine ⟨t0, t1, t2, v1, v2, heq0, heq1, heq2, ?_, ?_, ?_, ?_, ?_, hv1, hv2, h2.symm⟩
  · simpa using hn0
  · simpa using hn2
  · simp only [DIGIT_LENGTH_LIMIT] at hlen ⊢
    omega
  · simp only [DIGIT_LENGTH_LIMIT] at hlen ⊢
    omega
  · tauto

theorem parse_equation_eq_wellFormed (p : String) (e : Equation)
    (h : parse_equation p = .ok (.eq e)) : WellFormed e := by
  obtain ⟨t0, t1, t2, v1, v2, _, _, _, _, _, _, _, hb, hv1, hv2, he⟩ :=
    parse_tokens_eq_inv (pySplit p) e h
  obtain ⟨n1, hn1⟩ := pyInt_ok_shape _ _ hv1
  obtain ⟨n2, hn2⟩ := pyInt_ok_shape _ _ hv2
  subst he hn1 hn2
  refine ⟨n1, n2, ?_, ?_, ?_, ?_⟩
  · simp [pyIntRepr_ofNat, pyIntRepr_natCast]
  · simp [pyIntRepr_ofNat, pyIntRepr_natCast]
  · rcases hb with hb | hb <;> subst hb <;> rfl
  · unfold calculate_solution
    by_cases hplus : t1 = "+"
    · left
      rw [if_pos hplus]
      simp [Int.ofNat_eq_natCast]
    · right
      rw [if_neg hplus]
      simp [Int.ofNat_eq_natCast]

/-! ## Lemmas about the parse loop -/

theorem parsedEquations_arrangeLoop :
    ∀ (problems : List String) (eqs : List Equation),
      parsedEquations problems = some eqs →
      arrangeLoop problems = .ok (Sum.inr eqs) := by
  intro problems
  induction problems with
  | nil =>
    intro eqs h
    simp [parsedEquations] at h
    subst h
    rfl
  | cons p rest ih =>
    intro eqs h
    unfold parsedEquations at h
    split at h
    · rename_i e es hp hrest
      injection h with h2
      subst h2
      simp [arrangeLoop, hp, ih es hrest]
    · simp at h

theorem parsedEquations_length :
    ∀ (problems : List String) (eqs : List Equation),
      parsedEquations problems = some eqs → eqs.length = problems.length := by
  intro problems
  induction problems with
  | nil =>
    intro eqs h
    simp [parsedEquations] at h
    subst h
    rfl
  | cons p rest ih =>
    intro eqs h
    unfold parsedEquations at h
    split at h
    · rename_i e es hp hrest
      injection h with h2
      subst h2
      simp [ih es hrest]
    · simp at h

theorem parsedEquations_wellFormed :
    ∀ (problems : List String) (eqs : List Equation),
      parsedEquations problems = some eqs → ∀ e ∈ eqs, WellFormed e := by
  intro problems
  induction problems with
  | nil =>
    intro eqs h
    simp [parsedEquations] at h
    subst h
    intro e he
    simp at he
  | cons p rest ih =>
    intro eqs h
    unfold parsedEquations at h
    split at h
    · rename_i e es hp hrest
      injection h with h2
      subst h2
      intro x hx
      rcases List.mem_cons.1 hx with hx | hx
      · subst hx
        exact parse_equation_eq_wellFormed p x hp
      · exact ih es hrest x hx
    · simp at h

/-! ## Lemmas about the layout -/

theorem lineSegment_some (l : Nat) (hl : l = 1 ∨ l = 2 ∨ l = 3 ∨ l = 4)
    (e : Equation) : ∃ s, lineSegment l e = some s := by
  rcases hl with h | h | h | h <;> subst h <;> simp [lineSegment]

theorem buildLine_eq_rowOf (l : Nat) (hl : l = 1 ∨ l = 2 ∨ l = 3 ∨ l = 4) :
    ∀ eqs : List Equation, eqs ≠ [] → buildLine l eqs = some (rowOf l eqs) := by
  intro eqs
  induction eqs with
  | nil => intro h; exact absurd rfl h
  | cons e rest ih =>
    intro _
    cases rest with
    | nil =>
      obtain ⟨s, hs⟩ := lineSegment_some l hl e
      simp [buildLine, rowOf, rowConcat, hs]
    | cons e2 rest2 =>
      obtain ⟨s, hs⟩ := lineSegment_some l hl e
      have ih2 := ih (by simp)
      simp [buildLine, hs, ih2, rowOf, rowConcat]

theorem formatGo_eq (eqs : List Equation) (hne : eqs ≠ []) :
    ∀ lines : List Nat, (∀ l ∈ lines, l = 1 ∨ l = 2 ∨ l = 3 ∨ l = 4) →
      ∀ acc : String,
        formatGo lines eqs acc =
          acc ++ concatRows (lines.map (fun l => rowOf l eqs)) := by
  intro lines
  induction lines with
  | nil =>
    intro _ acc
    simp [formatGo, concatRows]
  | cons l ls ih =>
    intro hmem acc
    have hl := hmem l (by simp)
    have hb := buildLine_eq_rowOf l hl eqs hne
    have ihs := ih (fun x hx => hmem x (List.mem_cons_of_mem _ hx))
    simp [formatGo, hb, ihs, concatRows, String.append_assoc]

theorem format_eq_blockOf (eqs : List Equation) (hne : eqs ≠ []) (flag : Bool) :
    format_equations_string eqs flag = blockOf eqs flag := by
  have hmem : ∀ l ∈ rowIndices flag, l = 1 ∨ l = 2 ∨ l = 3 ∨ l = 4 := by
    cases flag <;> intro l hl <;> simp [rowIndices] at hl <;> tauto
  have h := formatGo_eq eqs hne (rowIndices flag) hmem ""
  unfold format_equations_string blockOf rowIndices
  unfold rowIndices at h
  rw [h, String.empty_append]

theorem sol_repr_len_le (e : Equation) (hwf : WellFormed e) :
    (pyIntRepr e.solution).length ≤ get_longest_operand_len e + 2 := by
  obtain ⟨n1, n2, h1, h2, hop, hsol⟩ := hwf
  have hl1 : (pyNatRepr n1).length ≤ get_longest_operand_len e := by
    unfold get_longest_operand_len
    rw [← h1]
    exact le_max_left _ _
  have hl2 : (pyNatRepr n2).length ≤ get_longest_operand_len e := by
    unfold get_longest_operand_len
    rw [← h2]
    exact le_max_right _ _
  have hn1 : n1 < 10 ^ get_longest_operand_len e :=
    lt_of_lt_of_le (pyNatRepr_lt n1) (Nat.pow_le_pow_right (by norm_num) hl1)
  have hn2 : n2 < 10 ^ get_longest_operand_len e :=
    lt_of_lt_of_le (pyNatRepr_lt n2) (Nat.pow_le_pow_right (by norm_num) hl2)
  have hLpos : 1 ≤ get_longest_operand_len e := le_trans (pyNatRepr_len_pos n1) hl1
  rcases hsol with hs | hs
  · have hnn : (0 : Int) ≤ e.solution := by omega
    rw [pyIntRepr_nonneg _ hnn]
    have htn : e.solution.toNat = n1 + n2 := by omega
    rw [htn]
    have hps : 10 ^ (get_longest_operand_len e + 1) = 10 ^ get_longest_operand_len e * 10 :=
      pow_succ 10 _
    have hsum : n1 + n2 < 10 ^ (get_longest_operand_len e + 1) := by omega
    have := pyNatRepr_len_le (n1 + n2) (get_longest_operand_len e + 1) hsum (by omega)
    omega
  · by_cases hneg : e.solution < 0
    · rw [pyIntRepr_neg _ hneg, String.length_append]
      have habs : e.solution.natAbs ≤ n2 := by omega
      have habs2 : e.solution.natAbs < 10 ^ get_longest_operand_len e :=
        lt_of_le_of_lt habs hn2
      have hlen := pyNatRepr_len_le _ _ habs2 hLpos
      have hm : ("-" : String).length = 1 := rfl
      omega
    · push_neg at hneg
      rw [pyIntRepr_nonneg _ hneg]
      have htn : e.solution.toNat ≤ n1 := by omega
      have h10 : e.solution.toNat < 10 ^ get_longest_operand_len e :=
        lt_of_le_of_lt htn hn1
      have hlen := pyNatRepr_len_le _ _ h10 hLpos
      omega

theorem lineSegment_width (l : Nat) (hl : l = 1 ∨ l = 2 ∨ l = 3 ∨ l = 4)
    (e : Equation) (hwf : WellFormed e) :
    ((lineSegment l e).getD "").length = segWidth e := by
  have hle1 : e.operand1.length ≤ get_longest_operand_len e := le_max_left _ _
  have hle2 : e.operand2.length ≤ get_longest_operand_len e := le_max_right _ _
  obtain ⟨n1, n2, h1, h2, hop, hsol⟩ := hwf
  have hbound := sol_repr_len_le e ⟨n1, n2, h1, h2, hop, hsol⟩
  rcases hl with h | h | h | h <;> subst h
  · show (pyRjust e.operand1 (get_longest_operand_len e + 2) ' ').length = segWidth e
    rw [pyRjust_length]
    unfold segWidth
    omega
  · show (e.operator ++ " " ++ pyRjust e.operand2 (get_longest_operand_len e) ' ').length =
      segWidth e
    rw [String.length_append, String.length_append, pyRjust_length, hop]
    have hone : (" " : String).length = 1 := rfl
    unfold segWidth
    omega
  · show (pyRjust "" (get_longest_operand_len e + 2) '-').length = segWidth e
    rw [pyRjust_length]
    have hz : ("" : String).length = 0 := rfl
    unfold segWidth
    omega
  · show (pyRjust (pyIntRepr e.solution) (get_longest_operand_len e + 2) ' ').length = segWidth e
    rw [pyRjust_length]
    unfold segWidth
    omega

theorem rowConcat_ends_newline :
    ∀ ss : List String, ss ≠ [] → ∃ r, rowConcat ss = r ++ NEW_LINE := by
  intro ss
  induction ss with
  | nil => intro h; exact absurd rfl h
  | cons s rest ih =>
    intro _
    cases rest with
    | nil => exact ⟨s, rfl⟩
    | cons s2 rest2 =>
      obtain ⟨r, hr⟩ := ih (by simp)
      refine ⟨s ++ TAB ++ r, ?_⟩
      show s ++ TAB ++ rowConcat (s2 :: rest2) = s ++ TAB ++ r ++ NEW_LINE
      rw [hr]
      simp [String.append_assoc]

theorem rowOf_ends_newline (l : Nat) (eqs : List Equation) (hne : eqs ≠ []) :
    ∃ r, rowOf l eqs = r ++ NEW_LINE :=
  rowConcat_ends_newline _ (by simp [hne])

/-! ## The claims -/

/-- C1 (code bug): the source never reports the token-count error.
`ERR_NOTM_CODE` and its dispatch case exist, but `parse_equation` has no
token-count check: a 4-token expression is formatted with the extra token
silently ignored, a 2-token expression whose first token is numeric raises
`IndexError`, and a 1-token non-numeric expression reports the non-digit
error — never `ERR_NUMBER_OF_TOKENS_MISMATCH`. -/
theorem C1_token_count_never_reported :
    arithmetic_arranger ["1 + 2 3"] false = .ok "  1\n+ 2\n---\n" ∧
    arithmetic_arranger ["1 +"] false = .error .indexError ∧
    arithmetic_arranger ["+"] false = .ok ERR_NON_DIGITS_PRESENT := by
  exact ⟨rfl, rfl, rfl⟩

/-- C2 (code bug): an operand made of a numeric but non-digit character
passes the `isnumeric()` check, so `int()` is reached and raises
`ValueError`; the promised `"Error: Numbers must only contain digits."`
result is never produced for `"½ + 1"`. -/
theorem C2_isnumeric_crash :
    arithmetic_arranger ["½ + 1"] false = .error .valueError ∧
    pyIsNumeric "½" = true ∧ ("½".data.all Char.isDigit) = false := by
  exact ⟨rfl, rfl, rfl⟩

/-- C3: any input list with more than `PROBLEM_LIMIT = 5` elements yields
exactly the too-many-problems message, whatever its contents, before any
expression is inspected. -/
theorem C3_too_many_problems (problems : List String) (flag : Bool)
    (h : PROBLEM_LIMIT < problems.length) :
    arithmetic_arranger problems flag = .ok ERR_TOO_MANY_PROBLEMS := by
  unfold arithmetic_arranger
  rw [if_pos h]

/-- Witness for C3 at a list of six malformed strings. -/
theorem C3_witness :
    PROBLEM_LIMIT < (["", "", "", "", "", ""] : List String).length ∧
    arithmetic_arranger ["", "", "", "", "", ""] false = .ok ERR_TOO_MANY_PROBLEMS :=
  ⟨by decide, C3_too_many_problems ["", "", "", "", "", ""] false (by decide)⟩

/-- C4 counterexample: the claim says `InvalidOperator` is reported only
when both operands are all-digit, but `"½ * 2"` gets the `InvalidOperator`
message although `"½"` is not a digit string: the first check of the source
is `isnumeric()`, not an all-digit check. -/
theorem C4_counterexample :
    arithmetic_arranger ["½ * 2"] false = .ok ERR_INVALID_OPERATOR ∧
    ("½".data.all Char.isDigit) = false := by
  exact ⟨rfl, rfl⟩

/-- C4 as amended: for a 3-token expression the per-expression checks run
in the order `isnumeric()` on both operands, then operand length, then
operator; `InvalidOperator` is reported exactly when both operands pass
`isnumeric()` (not necessarily all-digit), both are at most 4 characters,
and the operator is neither `+` nor `-`. -/
theorem C4_precedence (s a b c : String) (hs : pySplit s = [a, b, c]) :
    ((pyIsNumeric a = false ∨ pyIsNumeric c = false) →
      parse_equation s = .ok (.err ERR_NDP_CODE)) ∧
    (pyIsNumeric a = true → pyIsNumeric c = true → (4 < a.length ∨ 4 < c.length) →
      parse_equation s = .ok (.err ERR_NTL_CODE)) ∧
    (pyIsNumeric a = true → pyIsNumeric c = true → a.length ≤ 4 → c.length ≤ 4 →
      ¬ b = "+" → ¬ b = "-" → parse_equation s = .ok (.err ERR_IO_CODE)) ∧
    (parse_equation s = .ok (.err ERR_IO_CODE) →
      pyIsNumeric a = true ∧ pyIsNumeric c = true ∧ a.length ≤ 4 ∧ c.length ≤ 4 ∧
      ¬ b = "+" ∧ ¬ b = "-") := by
  have hpe : parse_equation s = parse_tokens [a, b, c] := by
    unfold parse_equation
    rw [hs]
  refine ⟨?_, ?_, ?_, ?_⟩
  · intro h
    rw [hpe]
    exact parse_tokens_ndp a b c h
  · intro ha hc hl
    rw [hpe]
    exact parse_tokens_ntl a b c ha hc hl
  · intro ha hc hla hlc hb1 hb2
    rw [hpe]
    exact parse_tokens_io a b c ha hc hla hlc hb1 hb2
  · intro h
    rw [hpe] at h
    cases ha : pyIsNumeric a with
    | false =>
      rw [parse_tokens_ndp a b c (Or.inl ha)] at h
      simp [ERR_NDP_CODE, ERR_IO_CODE] at h
    | true =>
      cases hc : pyIsNumeric c with
      | false =>
        rw [parse_tokens_ndp a b c (Or.inr hc)] at h
        simp [ERR_NDP_CODE, ERR_IO_CODE] at h
      | true =>
        by_cases hl : 4 < a.length ∨ 4 < c.length
        · rw [parse_tokens_ntl a b c ha hc hl] at h
          simp [ERR_NTL_CODE, ERR_IO_CODE] at h
        · push_neg at hl
          by_cases hb : ¬ b = "+" ∧ ¬ b = "-"
          · exact ⟨rfl, rfl, hl.1, hl.2, hb.1, hb.2⟩
          · exfalso
            rw [parse_tokens_three_reduce a b c ha hc] at h
            rw [if_neg (by simp only [DIGIT_LENGTH_LIMIT]; omega)] at h
            rw [if_neg hb] at h
            cases h1 : pyInt a with
            | error ex =>
              rw [h1] at h
              simp at h
            | ok v1 =>
              rw [h1] at h
              cases h2 : pyInt c with
              | error ex =>
                rw [h2] at h
                simp at h
              | ok v2 =>
                rw [h2] at h
                simp at h

/-- Witness for C4 at `"12 * 34"`. -/
theorem C4_witness : parse_equation "12 * 34" = .ok (.err ERR_IO_CODE) :=
  (C4_precedence "12 * 34" "12" "*" "34" rfl).2.2.1
    rfl rfl (by decide) (by decide) (by decide) (by decide)

/-- C5 counterexample: `"8555"` is exactly 4 characters long, so
`["3 / 8555"]` has no over-length operand and the source reports the
operator error, not the length error the claim asserts. -/
theorem C5_counterexample :
    arithmetic_arranger ["3 / 8555"] false = .ok ERR_INVALID_OPERATOR ∧
    ("8555" : String).length = 4 ∧
    ERR_INVALID_OPERATOR ≠ ERR_NUMBER_TOO_LONG := by
  exact ⟨rfl, rfl, by decide⟩

/-- C5 as amended: for an expression that really has both an invalid
operator and an over-length operand, such as `"3 / 85555"`, the length
check runs before the operator check and the length error wins. -/
theorem C5_length_beats_operator :
    arithmetic_arranger ["3 / 85555"] false = .ok ERR_NUMBER_TOO_LONG ∧
    4 < ("85555" : String).length ∧
    ¬ (("/" : String) = "+" ∨ ("/" : String) = "-") := by
  exact ⟨rfl, by decide, by decide⟩

/-- C6 counterexample: the claim says the stored operand equals the input
token character for character (`"007"` stored as `"007"`), but the source
stores `str(int(token))`, which strips the leading zeros: `"007"` is stored
as `"7"`. -/
theorem C6_counterexample :
    parse_equation "007 + 1" = .ok (.eq ⟨"7", "+", "1", 8⟩) ∧
    ("7" : String) ≠ "007" := by
  exact ⟨rfl, by decide⟩

/-- C6 as amended: the `Equation` stores each operand as `str(int(token))`
— the canonical decimal rendering of the token's integer value, which
coincides with the token only when the token has no superfluous leading
zeros — and stores the operator token unchanged. -/
theorem C6_operands_canonical (s a b c : String) (e : Equation)
    (hs : pySplit s = [a, b, c]) (hp : parse_equation s = .ok (.eq e)) :
    ∃ v1 v2 : Int, pyInt a = .ok v1 ∧ pyInt c = .ok v2 ∧
      e.operand1 = pyIntRepr v1 ∧ e.operator = b ∧ e.operand2 = pyIntRepr v2 ∧
      e.solution = calculate_solution v1 b v2 := by
  have hpe : parse_tokens [a, b, c] = .ok (.eq e) := by
    unfold parse_equation at hp
    rw [hs] at hp
    exact hp
  obtain ⟨t0, t1, t2, v1, v2, h0, h1, h2, _, _, _, _, _, hv1, hv2, he⟩ :=
    parse_tokens_eq_inv [a, b, c] e hpe
  rw [pyGet_three_zero] at h0
  rw [pyGet_three_one] at h1
  rw [pyGet_three_two] at h2
  injection h0 with h0
  injection h1 with h1
  injection h2 with h2
  subst h0 h1 h2 he
  exact ⟨v1, v2, hv1, hv2, rfl, rfl, rfl, rfl⟩

/-- Witness for C6 at `"12 + 3"`. -/
theorem C6_witness :
    ∃ v1 v2 : Int, pyInt "12" = .ok v1 ∧ pyInt "3" = .ok v2 ∧
      (⟨"12", "+", "3", 15⟩ : Equation).operand1 = pyIntRepr v1 ∧
      (⟨"12", "+", "3", 15⟩ : Equation).operator = "+" ∧
      (⟨"12", "+", "3", 15⟩ : Equation).operand2 = pyIntRepr v2 ∧
      (⟨"12", "+", "3", 15⟩ : Equation).solution = calculate_solution v1 "+" v2 :=
  C6_operands_canonical "12 + 3" "12" "+" "3" ⟨"12", "+", "3", 15⟩ rfl rfl

/-- C7: on a valid input list of 1 to 5 expressions, the result is the block
of rows `[1, 2, 3]` (plus row `4` with solutions): each row is the
per-equation segments joined by the four-space `TAB` separator and
terminated by `NEW_LINE`, and every segment of every row of an equation has
width `max(len(operand1), len(operand2)) + 2`. -/
theorem C7_block_structure (problems : List String) (flag : Bool)
    (eqs : List Equation) (h1 : 1 ≤ problems.length) (h5 : problems.length ≤ 5)
    (hp : parsedEquations problems = some eqs) :
    arithmetic_arranger problems flag = .ok (blockOf eqs flag) ∧
    (rowIndices flag).length = (if flag then 4 else 3) ∧
    (∀ l ∈ rowIndices flag, ∃ r, rowOf l eqs = r ++ NEW_LINE) ∧
    (∀ l ∈ rowIndices flag, ∀ e ∈ eqs,
      ((lineSegment l e).getD "").length = segWidth e) := by
  have hlen := parsedEquations_length problems eqs hp
  have hne : eqs ≠ [] := by
    intro hemp
    subst hemp
    simp at hlen
    omega
  have hwfs := parsedEquations_wellFormed problems eqs hp
  have hloop := parsedEquations_arrangeLoop problems eqs hp
  have hmem : ∀ l ∈ rowIndices flag, l = 1 ∨ l = 2 ∨ l = 3 ∨ l = 4 := by
    cases flag <;> intro l hl <;> simp [rowIndices] at hl <;> tauto
  refine ⟨?_, ?_, ?_, ?_⟩
  · unfold arithmetic_arranger
    rw [if_neg (by simp only [PROBLEM_LIMIT]; omega)]
    simp [hloop, format_eq_blockOf eqs hne flag]
  · cases flag <;> rfl
  · intro l _
    exact rowOf_ends_newline l eqs hne
  · intro l hl e he
    exact lineSegment_width l (hmem l hl) e (hwfs e he)

/-- Witness for C7 at `["3801 - 2"]` without solutions. -/
theorem C7_witness :
    arithmetic_arranger ["3801 - 2"] false =
        .ok (blockOf [⟨"3801", "-", "2", 3799⟩] false) ∧
    (rowIndices false).length = (if false then 4 else 3) ∧
    (∀ l ∈ rowIndices false,
      ∃ r, rowOf l [(⟨"3801", "-", "2", 3799⟩ : Equation)] = r ++ NEW_LINE) ∧
    (∀ l ∈ rowIndices false, ∀ e ∈ [(⟨"3801", "-", "2", 3799⟩ : Equation)],
      ((lineSegment l e).getD "").length = segWidth e) :=
  C7_block_structure ["3801 - 2"] false [⟨"3801", "-", "2", 3799⟩]
    (by decide) (by decide) rfl

/-- C8: the concrete two-equation example renders exactly as claimed. -/
theorem C8_example :
    arithmetic_arranger ["3801 - 2", "123 + 49"] false =
      .ok "  3801      123\n-    2    +  49\n------    -----\n" := by
  rfl

/-- C9: `calculate_solution` adds on `"+"` and subtracts on `"-"`; a
negative difference is rendered by `str()` with a leading `-`, which is the
rendering row 4 right-justifies. -/
theorem C9_evaluator (a b : Nat) :
    calculate_solution (a : Int) "+" (b : Int) = (a : Int) + b ∧
    calculate_solution (a : Int) "-" (b : Int) = (a : Int) - b ∧
    (calculate_solution (a : Int) "-" (b : Int) < 0 →
      (pyIntRepr (calculate_solution (a : Int) "-" (b : Int))).data.head? =
        some '-') := by
  refine ⟨?_, ?_, ?_⟩
  · unfold calculate_solution
    rw [if_pos rfl]
  · unfold calculate_solution
    rw [if_neg (by decide)]
  · intro h
    exact pyIntRepr_neg_head _ h

/-- Witness for C9 at `1 - 2 = -1`. -/
theorem C9_witness :
    calculate_solution ((1 : Nat) : Int) "+" ((2 : Nat) : Int) =
        ((1 : Nat) : Int) + ((2 : Nat) : Int) ∧
    calculate_solution ((1 : Nat) : Int) "-" ((2 : Nat) : Int) =
        ((1 : Nat) : Int) - ((2 : Nat) : Int) ∧
    (pyIntRepr (calculate_solution ((1 : Nat) : Int) "-" ((2 : Nat) : Int))).data.head? =
      some '-' := by
  have h := C9_evaluator 1 2
  exact ⟨h.1, h.2.1, h.2.2 (by decide)⟩

/-- C10: the empty input list yields the empty string for either flag value:
the cardinality check passes, the parse loop collects nothing, and every
row's inner loop body never runs, so no text and no newline is emitted. -/
theorem C10_empty_input :
    arithmetic_arranger [] false = .ok "" ∧
    arithmetic_arranger [] true = .ok "" := by
  exact ⟨rfl, rfl⟩

end ArithmeticArranger
